import Mathlib

/-!
Verification of `scripts/gemini_ads_analysis.py`.

The script is a sequential pipeline: fetch (or synthesize, in dry-run mode)
high-spend zero-conversion search terms, format them as `FormattedTermLine`
strings, and hand them to either the real Gemini backend or a deterministic
mock responder.  The embedding below translates each Python function into a
Lean function over explicit inputs:

* Python `float` money values are modelled as exact scaled decimals
  (`Dec`, an integer numerator over a power of ten): every literal the
  program manipulates is a decimal string, and `f"{x:.2f}"` is modelled as
  rounding the exact value to cents (round half away from zero on the
  positive values that occur here, via floor of `x*100 + 1/2`).
* Python exceptions are modelled with `Except`: a function that can let an
  exception escape returns `Except PyErr _`; a `try/except` block is a
  `match` on the outcome of the external call it guards.
* External collaborators (the Ads reporting stream, `yaml.safe_load`, the
  credential loader, the Gemini model constructor and `generate_content`)
  are inputs: their outcomes are fields of `Env` / arguments of the
  functions that call them.
* YAML documents are modelled by `YamlValue` (scalars, sequences, string
  keyed mappings); Python truthiness, `str()` and iteration over a value
  are `pyTruthy`, `pyStr` and `pyIter`.
* `print` output is modelled by returning the list of strings passed to
  `print` (one entry per call, in order); `main` additionally returns the
  list of analysis-backend invocations it performs, so that "no model call
  happens on this path" is a statement about the returned trace.
-/

/-- Exception classes that the modelled Python code can raise: attribute
errors from calling `.get` on a non-mapping, type errors from iterating a
non-iterable, and arbitrary library exceptions carrying a message. -/
inductive PyErr where
  | attributeError
  | typeError
  | exn (msg : String)
deriving DecidableEq

/-- Exact decimal number `num / 10 ^ exp`: the model of the Python floats in
this program (all of which are parsed from or printed as decimal strings). -/
structure Dec where
  num : Int
  exp : Nat
deriving DecidableEq

/-- Model of Python float addition on exact decimals (`total_spend += spent`). -/
def Dec.add (a b : Dec) : Dec :=
  ⟨a.num * (10 : Int) ^ (max a.exp b.exp - a.exp)
    + b.num * (10 : Int) ^ (max a.exp b.exp - b.exp), max a.exp b.exp⟩

/-- Value of a `Dec` in rounded cents: the integer `n` with `n = ⌊x*100 + 1/2⌋`,
the model of what `f"{x:.2f}"` prints before the decimal point is inserted. -/
def Dec.cents (d : Dec) : Int :=
  Int.fdiv (200 * d.num + (10 : Int) ^ d.exp) (2 * (10 : Int) ^ d.exp)

/-- Two-digit zero padding for the cents part of a formatted amount. -/
def pad2 (n : Nat) : String :=
  if n < 10 then "0" ++ toString n else toString n

/-- Dollars-and-cents rendering of an integer number of cents. -/
def fmtCents (c : Int) : String :=
  (if c < 0 then "-" else "") ++ toString (c.natAbs / 100) ++ "." ++ pad2 (c.natAbs % 100)

/-- Model of the Python format specifier `:.2f` applied to a money value. -/
def Dec.fmt2 (d : Dec) : String :=
  fmtCents (Dec.cents d)

/-- Model of Python `str.split(sep)` for a one-character separator, on the
character list of the string: always returns at least one (possibly empty)
group. -/
def splitChar (sep : Char) : List Char → List (List Char)
  | [] => [[]]
  | x :: xs =>
    match splitChar sep xs with
    | [] => [[]]
    | g :: gs => if x = sep then [] :: g :: gs else (x :: g) :: gs

/-- Model of Python `str.strip(c)`: removes every leading and trailing
occurrence of the character `c`. -/
def stripCharL (c : Char) (cs : List Char) : List Char :=
  ((cs.dropWhile (· = c)).reverse.dropWhile (· = c)).reverse

/-- Numeric value of a digit string. -/
def digitsVal (ds : List Char) : Nat :=
  ds.foldl (fun a c => a * 10 + (c.toNat - '0'.toNat)) 0

/-- Model of Python `float(s)` restricted to plain decimal literals (an
optional sign, digits, an optional point and fraction digits — the only
shapes produced or consumed by this program); every other string raises
`ValueError`, modelled as `none`. -/
def parseDecimal (cs : List Char) : Option Dec :=
  let sgn : Int := match cs with
    | '-' :: _ => -1
    | _ => 1
  let body := match cs with
    | '-' :: rest => rest
    | '+' :: rest => rest
    | rest => rest
  let ip := body.takeWhile Char.isDigit
  let tail := body.dropWhile Char.isDigit
  match tail with
  | [] => if ip.isEmpty then none else some ⟨sgn * (digitsVal ip : Int), 0⟩
  | '.' :: fp =>
    if fp.all Char.isDigit && !(ip.isEmpty && fp.isEmpty) then
      some ⟨sgn * ((digitsVal ip * 10 ^ fp.length + digitsVal fp : Nat) : Int), fp.length⟩
    else none
  | _ => none

/-- Model of `float(t.split("$")[-1].strip(')'))` with the `except` fallback
to `0.0`: the cost `mock_gemini_response` re-parses out of one
FormattedTermLine. -/
def parsedCost (t : String) : Dec :=
  (parseDecimal (stripCharL ')' ((splitChar '$' t.data).getLastD []))).getD ⟨0, 0⟩

/-- Running total of the mock backend: `total_spend` after the first loop of
`mock_gemini_response`. -/
def mockTotal (terms : List String) : Dec :=
  terms.foldl (fun acc t => Dec.add acc (parsedCost t)) ⟨0, 0⟩

/-- Summary line of the mock report
(`f"Total simulated spend: ${total_spend:.2f} across {len(terms_list)} terms.\n"`). -/
def mockSummaryLine (terms : List String) : String :=
  "Total simulated spend: $" ++ Dec.fmt2 (mockTotal terms) ++ " across "
    ++ toString terms.length ++ " terms.\n"

/-- Fixed recommendation bullets of the mock report, between the summary line
and the per-term notes. -/
def mockRecsBlock : String :=
  "Top recommendations:\n"
    ++ "1) Add informational negative keywords: 'how to', 'video', 'manual', 'youtube'.\n"
    ++ "2) Exclude parts & low-value intents: 'parts', 'cheap', 'coupon', 'used'.\n"
    ++ "3) Verify landing page and geo-targeting for high-spend, high-intent keywords.\n\n"
    ++ "Detailed per-term notes:\n"

/-- Closing line of the mock report. -/
def mockClosing : String :=
  "\nMock closing note: Review negative keyword list and monitor conversions for 7 days."

/-- Per-term note line the mock report appends for each input term. -/
def mockNoteLine (t : String) : String :=
  "- " ++ t ++ ": Likely informational or parts intent; consider adding related negatives.\n"

/-- Everything of the mock report before the per-term notes. -/
def mockReportHead (terms : List String) : String :=
  "(Mock) Gemini Analysis Summary:\n" ++ mockSummaryLine terms ++ mockRecsBlock

/-- Model of `mock_gemini_response`: the deterministic offline analysis.  The
source builds a list of lines and returns `"".join(lines)`; the same string
is written here as an explicit concatenation (grouped to the right). -/
def mock_gemini_response (terms : List String) : String :=
  "(Mock) Gemini Analysis Summary:\n"
    ++ (mockSummaryLine terms
    ++ (mockRecsBlock
    ++ (String.join (terms.map mockNoteLine)
    ++ mockClosing)))

/-- FormattedTermLine built from a term text and a cost in micro-currency
units: `f"Term: '{term}' (Spent: ${cost:.2f})"` with `cost = micros / 1e6`. -/
def termLine (text : String) (micros : Int) : String :=
  "Term: '" ++ text ++ "' (Spent: $" ++ Dec.fmt2 ⟨micros, 6⟩ ++ ")"

/-- Model of `get_wasted_spend_queries`, applied to the outcome of the
streaming query (rows of search term and `cost_micros`, or a
`GoogleAdsException` message).  Returns the lines the function prints and
the list it returns: the error is caught, its message printed, and `[]`
returned. -/
def get_wasted_spend_queries (outcome : Except String (List (String × Int))) :
    List String × List String :=
  match outcome with
  | .ok rows => ([], rows.map (fun r => termLine r.1 r.2))
  | .error msg => (["Ads API Error: " ++ msg], [])

/-- Prompt `analyze_with_gemini` builds for a non-empty term list: role
statement, newline-joined terms, and the fixed three-part task. -/
def buildPrompt (terms : List String) : String :=
  "You are a Google Ads specialist. Look at these search terms that are costing money but resulting in zero conversions:\n\n"
    ++ String.intercalate "\n" terms
    ++ "\n\nTask:\n1. Identify which terms likely represent 'junk' or 'irrelevant' intent.\n2. Provide a list of recommended Negative Keywords to add.\n3. Explain briefly why for each."

/-- Python truthiness of an optional environment string (`if not X`): `None`
and the empty string are falsy. -/
def truthyOptStr : Option String → Bool
  | none => false
  | some s => s != ""

/-- Python f-string rendering of an optional environment string. -/
def pyStrOpt : Option String → String
  | none => "None"
  | some s => s

/-- Outcome of `model.generate_content(prompt)`: a response whose `text`
attribute is `text` (absent = `none`) and whose `str()` is `rendered`, or a
raised exception with message `msg`. -/
inductive GenOutcome where
  | success (text : Option String) (rendered : String)
  | failure (msg : String)
deriving DecidableEq

/-- String `analyze_with_gemini` produces from the generate-content outcome:
the truthy `text` attribute, else `str(response)`, and for a raised
exception the caught error message. -/
def genReturn : GenOutcome → String
  | .success t r =>
    match t with
    | some s => if s != "" then s else r
    | none => r
  | .failure msg => "Gemini API error: " ++ msg

/-- Model of `analyze_with_gemini`.  Inputs beyond the term list: the
`GEMINI_API_KEY` value, the outcomes of the two `genai.GenerativeModel`
construction attempts (the second is the bare retry in the `except` arm, and
its failure is uncaught), and the `generate_content` outcome.  Returns the
function's result (or the uncaught exception) and whether a
`generate_content` call was made. -/
def analyze_with_gemini (terms : List String) (apiKey : Option String)
    (ctor1 ctor2 : Except PyErr Unit) (gen : GenOutcome) :
    Except PyErr String × Bool :=
  match terms with
  | [] => (Except.ok "No data found to analyze.", false)
  | _ :: _ =>
    let prompt := buildPrompt terms
    if !truthyOptStr apiKey then
      (Except.ok ("GEMINI_API_KEY not set. Preview prompt to send to Gemini:\n\n" ++ prompt), false)
    else
      match ctor1 with
      | .ok _ => (Except.ok (genReturn gen), true)
      | .error _ =>
        match ctor2 with
        | .ok _ => (Except.ok (genReturn gen), true)
        | .error e => (Except.error e, false)

/-- YAML documents as `yaml.safe_load` returns them, restricted to the
scalars this program's configs use (strings, integers, booleans, null),
sequences, and string-keyed mappings. -/
inductive YamlValue where
  | null
  | bool (b : Bool)
  | int (n : Int)
  | str (s : String)
  | list (xs : List YamlValue)
  | dict (kvs : List (String × YamlValue))

/-- Python dict lookup on a modelled mapping (first binding of the key). -/
def lookupStr (d : List (String × YamlValue)) (k : String) : Option YamlValue :=
  match d.find? (fun kv => kv.1 == k) with
  | some kv => some kv.2
  | none => none

/-- Python truthiness of a YAML value. -/
def pyTruthy : YamlValue → Bool
  | .null => false
  | .bool b => b
  | .int n => n != 0
  | .str s => s != ""
  | .list xs => !xs.isEmpty
  | .dict kvs => !kvs.isEmpty

mutual

/-- Python `repr()` of a YAML value (used by `str()` on containers). -/
def pyRepr : YamlValue → String
  | .null => "None"
  | .bool true => "True"
  | .bool false => "False"
  | .int n => toString n
  | .str s => "'" ++ s ++ "'"
  | .list xs => "[" ++ pyReprSeq xs ++ "]"
  | .dict kvs => "\x7b" ++ pyReprPairs kvs ++ "\x7d"

/-- Comma-separated reprs of a sequence's elements. -/
def pyReprSeq : List YamlValue → String
  | [] => ""
  | [x] => pyRepr x
  | x :: y :: xs => pyRepr x ++ ", " ++ pyReprSeq (y :: xs)

/-- Comma-separated reprs of a mapping's bindings. -/
def pyReprPairs : List (String × YamlValue) → String
  | [] => ""
  | [(k, v)] => "'" ++ k ++ "': " ++ pyRepr v
  | (k, v) :: kv :: xs => "'" ++ k ++ "': " ++ pyRepr v ++ ", " ++ pyReprPairs (kv :: xs)

end

/-- Python `str()` of a YAML value, as interpolated by an f-string. -/
def pyStr : YamlValue → String
  | .str s => s
  | v => pyRepr v

/-- Python iteration over a YAML value (`for x in v`): lists yield their
elements, strings their characters, mappings their keys; other values raise
`TypeError`. -/
def pyIter : YamlValue → Except PyErr (List YamlValue)
  | .list xs => Except.ok xs
  | .str s => Except.ok (s.data.map (fun c => YamlValue.str (String.mk [c])))
  | .dict kvs => Except.ok (kvs.map (fun kv => YamlValue.str kv.1))
  | _ => Except.error PyErr.typeError

/-- Keyword text extraction of the dry-run loop:
`kw.get("text") if isinstance(kw, dict) else kw`. -/
def extractText : YamlValue → YamlValue
  | .dict d => (lookupStr d "text").getD YamlValue.null
  | v => v

/-- Inner keyword loop of the dry-run branch of `main`, from a list of
keyword entries and the current value of `idx`: skips entries with falsy
text, emits `termLine` with `cost_micros = 60_000_000 + idx * 10_000_000`,
increments `idx`, and breaks once `idx` reaches 10.  Returns the emitted
lines and the final `idx`. -/
def processKeywords : List YamlValue → Nat → List String × Nat
  | [], idx => ([], idx)
  | kw :: rest, idx =>
    let text := extractText kw
    if pyTruthy text then
      let line := termLine (pyStr text) (60000000 + (idx : Int) * 10000000)
      if 10 ≤ idx + 1 then ([line], idx + 1)
      else ((line :: (processKeywords rest (idx + 1)).1), (processKeywords rest (idx + 1)).2)
    else processKeywords rest idx

/-- Outer ad-group loop of the dry-run branch: `ag.get("keywords", [])` on
each group (an `AttributeError` if a group is not a mapping, a `TypeError`
if the keywords value is not iterable), the inner keyword loop, and the
break once `idx` reaches 10. -/
def processGroups : List YamlValue → Nat → Except PyErr (List String)
  | [], _ => Except.ok []
  | ag :: rest, idx =>
    match ag with
    | .dict d =>
      match pyIter ((lookupStr d "keywords").getD (YamlValue.list [])) with
      | .error e => Except.error e
      | .ok kws =>
        if 10 ≤ (processKeywords kws idx).2 then Except.ok (processKeywords kws idx).1
        else
          match processGroups rest (processKeywords kws idx).2 with
          | .error e => Except.error e
          | .ok ls => Except.ok ((processKeywords kws idx).1 ++ ls)
    | _ => Except.error PyErr.attributeError

/-- Dry-run synthesizer: `cfg.get("ad_groups", [])` (an `AttributeError` if
the parsed config is not a mapping) and the two nested loops, starting from
`idx = 0`. -/
def synthesizeTerms (cfg : YamlValue) : Except PyErr (List String) :=
  match cfg with
  | .dict d =>
    match pyIter ((lookupStr d "ad_groups").getD (YamlValue.list [])) with
    | .error e => Except.error e
    | .ok ags => processGroups ags 0
  | _ => Except.error PyErr.attributeError

/-- Analysis-backend invocations a run performs, for stating which calls a
path makes. -/
inductive CallEvt where
  | adsQuery
  | modelGenerate
  | mockAnalyze
deriving DecidableEq

/-- One run's inputs: the two CLI flags, the environment configuration, and
the outcome of every external call the run might perform. -/
structure Env where
  dryRun : Bool
  mockGemini : Bool
  campaignCfgPath : String
  campaignCfgExists : Bool
  cfgParse : Except PyErr YamlValue
  targetCustomerId : Option String
  adsCfgPath : String
  adsLoad : Except PyErr Unit
  adsQuery : Except String (List (String × Int))
  apiKey : Option String
  ctor1 : Except PyErr Unit
  ctor2 : Except PyErr Unit
  gen : GenOutcome

/-- Backend selection both branches of `main` share
(`mock_gemini_response(terms)` if `--mock-gemini` else
`analyze_with_gemini(terms)`), with the invocations it performs. -/
def chooseAnalysis (mock : Bool) (terms : List String) (apiKey : Option String)
    (c1 c2 : Except PyErr Unit) (gen : GenOutcome) :
    Except PyErr (String × List CallEvt) :=
  if mock then Except.ok (mock_gemini_response terms, [CallEvt.mockAnalyze])
  else
    match analyze_with_gemini terms apiKey c1 c2 gen with
    | (.ok s, b) => Except.ok (s, if b then [CallEvt.modelGenerate] else [])
    | (.error e, _) => Except.error e

/-- First line `main` prints. -/
def startLine : String := "--- Starting Gemini Ads Analysis ---"

/-- Model of `main`: returns the printed lines and the analysis/query calls
performed, or the uncaught exception that escapes. -/
def mainRun (env : Env) : Except PyErr (List String × List CallEvt) :=
  if env.dryRun then
    if !env.campaignCfgExists then
      Except.ok ([startLine,
        "Dry-run requested but " ++ env.campaignCfgPath ++ " not found."], [])
    else
      match env.cfgParse with
      | .error e => Except.error e
      | .ok cfg =>
        match synthesizeTerms cfg with
        | .error e => Except.error e
        | .ok terms =>
          match chooseAnalysis env.mockGemini terms env.apiKey env.ctor1 env.ctor2 env.gen with
          | .error e => Except.error e
          | .ok res =>
            Except.ok
              ([startLine,
                "Dry-run: generated " ++ toString terms.length ++ " simulated terms from "
                  ++ env.campaignCfgPath ++ ".",
                "Terms preview:"]
                ++ terms.map (fun t => " - " ++ t)
                ++ ["\nSending (simulated) terms to Gemini for analysis...",
                    "\n--- GEMINI 3 RECOMMENDATIONS (Dry-run) ---",
                    res.1],
               res.2)
  else
    if !truthyOptStr env.targetCustomerId then
      Except.ok ([startLine, "TARGET_CUSTOMER_ID not set. Set the env var and retry."], [])
    else
      match env.adsLoad with
      | .error _ =>
        Except.ok ([startLine,
          "Stop: Could not load " ++ env.adsCfgPath
            ++ ". Please add it to the folder or set PATH_TO_ADS_CONFIG."], [])
      | .ok _ =>
        let fetch := "Fetching data for Account " ++ pyStrOpt env.targetCustomerId ++ "..."
        let q := get_wasted_spend_queries env.adsQuery
        if q.2.isEmpty then
          Except.ok ([startLine, fetch] ++ q.1
            ++ ["No wasted spend detected based on your filters."], [CallEvt.adsQuery])
        else
          match chooseAnalysis env.mockGemini q.2 env.apiKey env.ctor1 env.ctor2 env.gen with
          | .error e => Except.error e
          | .ok res =>
            Except.ok
              ([startLine, fetch] ++ q.1
                ++ ["Found " ++ toString q.2.length ++ " terms. Sending to Gemini 3 for review...",
                    "\n--- GEMINI 3 RECOMMENDATIONS ---",
                    res.1],
               CallEvt.adsQuery :: res.2)

/-- Rewriting of the mock total as a fold over the list of parsed costs. -/
theorem mockTotal_eq_foldl_map (terms : List String) :
    mockTotal terms = (terms.map parsedCost).foldl Dec.add ⟨0, 0⟩ := by
  simp [mockTotal, List.foldl_map]

set_option maxRecDepth 8000 in
/-- Claim C1: for every input list of FormattedTermLine strings the mock
backend reports a total simulated spend equal to the sum of the costs parsed
from the lines (substring after the last dollar sign, a trailing bracket
stripped, parsed as a decimal; unparsable entries count as zero), formatted
to 2 decimals, together with the term count; on the two-line example the
report contains the text with total 30.00 across 2 terms. -/
theorem mock_total_spend_reported :
    (∀ terms : List String, ∃ pre post : String,
      mock_gemini_response terms =
        pre ++ ("Total simulated spend: $"
          ++ Dec.fmt2 ((terms.map parsedCost).foldl Dec.add ⟨0, 0⟩)
          ++ " across " ++ toString terms.length ++ " terms.\n") ++ post)
    ∧ parsedCost "Term: 'x' (Spent: $10.00)" = ⟨1000, 2⟩
    ∧ parsedCost "Term: 'junk' (Spent: $n/a)" = ⟨0, 0⟩
    ∧ (∃ pre post : String,
        mock_gemini_response ["Term: 'x' (Spent: $10.00)", "Term: 'y' (Spent: $20.00)"]
          = pre ++ "Total simulated spend: $30.00 across 2 terms." ++ post) := by
  refine ⟨?_, by decide, by decide, ?_⟩
  · intro terms
    refine ⟨"(Mock) Gemini Analysis Summary:\n",
      mockRecsBlock ++ (String.join (terms.map mockNoteLine) ++ mockClosing), ?_⟩
    simp [mock_gemini_response, mockSummaryLine, mockTotal_eq_foldl_map, String.append_assoc]
  · exact ⟨"(Mock) Gemini Analysis Summary:\n",
      "\n" ++ (mockRecsBlock
        ++ (String.join (["Term: 'x' (Spent: $10.00)", "Term: 'y' (Spent: $20.00)"].map mockNoteLine)
        ++ mockClosing)), by decide⟩

/-- Claim C6: the mock backend's output is its fixed head, then exactly one
note line per input term in input order, of the exact dashed form, then the
closing note. -/
theorem mock_per_term_notes (terms : List String) :
    mock_gemini_response terms =
      mockReportHead terms
        ++ String.join (terms.map (fun t =>
            "- " ++ t ++ ": Likely informational or parts intent; consider adding related negatives.\n"))
        ++ mockClosing := by
  show mock_gemini_response terms
    = mockReportHead terms ++ String.join (terms.map mockNoteLine) ++ mockClosing
  simp [mock_gemini_response, mockReportHead, String.append_assoc]

/-- Claim C8: a platform-reported error during the wasted-spend query is
caught, its message printed, and the empty list returned, which is the very
list returned for a query that matched nothing. -/
theorem wasted_spend_error_to_empty (msg : String) :
    get_wasted_spend_queries (Except.error msg) = (["Ads API Error: " ++ msg], [])
    ∧ (get_wasted_spend_queries (Except.error msg)).2
        = (get_wasted_spend_queries (Except.ok [])).2 :=
  ⟨rfl, rfl⟩

set_option maxRecDepth 8000 in
/-- Claim C10: on the empty list the mock backend returns the full template
report (total 0.00 across 0 terms, no per-term note lines), and on no input
does it return the real backend's sentinel string. -/
theorem mock_empty_report_and_never_sentinel :
    mock_gemini_response [] =
      "(Mock) Gemini Analysis Summary:\nTotal simulated spend: $0.00 across 0 terms.\nTop recommendations:\n1) Add informational negative keywords: 'how to', 'video', 'manual', 'youtube'.\n2) Exclude parts & low-value intents: 'parts', 'cheap', 'coupon', 'used'.\n3) Verify landing page and geo-targeting for high-spend, high-intent keywords.\n\nDetailed per-term notes:\n\nMock closing note: Review negative keyword list and monitor conversions for 7 days."
    ∧ ∀ terms : List String, mock_gemini_response terms ≠ "No data found to analyze." := by
  refine ⟨by decide, ?_⟩
  intro terms h
  have hh : (mock_gemini_response terms).data.head? = some '(' := rfl
  rw [h] at hh
  exact absurd hh (by decide)

/-- Preview strings of the live backend are never the empty-input sentinel:
they start with a different character. -/
theorem preview_ne_sentinel (s : String) :
    "GEMINI_API_KEY not set. Preview prompt to send to Gemini:\n\n" ++ s
      ≠ "No data found to analyze." := by
  intro h
  have h1 : ("GEMINI_API_KEY not set. Preview prompt to send to Gemini:\n\n" ++ s).data.head?
      = some 'G' := rfl
  rw [h] at h1
  exact absurd h1 (by decide)

/-- Claim C4, counterexample: with a credential configured and a model whose
successful response text is exactly the sentinel string, analyze_with_gemini
returns the sentinel on a non-empty input list, refuting the claimed "only
if the input list is empty". -/
theorem analyze_sentinel_nonempty_cex :
    (analyze_with_gemini ["Term: 'x' (Spent: $10.00)"] (some "key")
        (Except.ok ()) (Except.ok ())
        (GenOutcome.success (some "No data found to analyze.") "resp")).1
      = Except.ok "No data found to analyze."
    ∧ (["Term: 'x' (Spent: $10.00)"] : List String) ≠ [] :=
  ⟨rfl, by simp⟩

/-- Claim C4 as amended: analyze_with_gemini returns the sentinel whenever
the input list is empty, short-circuiting independently of the credential
and of every model outcome; for a non-empty list it returns the sentinel
only when a credential is configured and the model call's own returned text
is exactly the sentinel string. -/
theorem analyze_sentinel_iff_amended (terms : List String) (apiKey : Option String)
    (c1 c2 : Except PyErr Unit) (gen : GenOutcome) :
    (terms = [] → analyze_with_gemini terms apiKey c1 c2 gen
        = (Except.ok "No data found to analyze.", false))
    ∧ ((analyze_with_gemini terms apiKey c1 c2 gen).1 = Except.ok "No data found to analyze."
        → terms ≠ []
        → truthyOptStr apiKey = true ∧ genReturn gen = "No data found to analyze.") := by
  cases terms with
  | nil => exact ⟨fun _ => rfl, fun _ hne => absurd rfl hne⟩
  | cons a rest =>
    refine ⟨(fun h => nomatch h), fun h _ => ?_⟩
    by_cases hk : truthyOptStr apiKey = true
    · refine ⟨hk, ?_⟩
      cases c1 with
      | ok u =>
        have he : analyze_with_gemini (a :: rest) apiKey (Except.ok u) c2 gen
            = (Except.ok (genReturn gen), true) := by simp [analyze_with_gemini, hk]
        rw [he] at h
        simpa using h
      | error e1 =>
        cases c2 with
        | ok u =>
          have he : analyze_with_gemini (a :: rest) apiKey (Except.error e1) (Except.ok u) gen
              = (Except.ok (genReturn gen), true) := by simp [analyze_with_gemini, hk]
          rw [he] at h
          simpa using h
        | error e2 =>
          have he : analyze_with_gemini (a :: rest) apiKey (Except.error e1) (Except.error e2) gen
              = (Except.error e2, false) := by simp [analyze_with_gemini, hk]
          rw [he] at h
          simp at h
    · rw [Bool.not_eq_true] at hk
      exfalso
      have he : analyze_with_gemini (a :: rest) apiKey c1 c2 gen
          = (Except.ok ("GEMINI_API_KEY not set. Preview prompt to send to Gemini:\n\n"
              ++ buildPrompt (a :: rest)), false) := by simp [analyze_with_gemini, hk]
      rw [he] at h
      simp at h
      exact absurd h (preview_ne_sentinel _)

/-- Claim C4 amended, witness: the amended theorem applied at the
counterexample input. -/
theorem analyze_sentinel_iff_amended_witness :
    truthyOptStr (some "key") = true
    ∧ genReturn (GenOutcome.success (some "No data found to analyze.") "resp")
        = "No data found to analyze." :=
  (analyze_sentinel_iff_amended ["Term: 'x' (Spent: $10.00)"] (some "key")
      (Except.ok ()) (Except.ok ())
      (GenOutcome.success (some "No data found to analyze.") "resp")).2 rfl (by simp)

/-- Claim C7: with a non-empty term list and no configured credential,
analyze_with_gemini returns the notice followed by the full unsent prompt
(role statement, newline-joined terms, three-part task) and performs no
model call. -/
theorem analyze_preview_without_key (terms : List String) (apiKey : Option String)
    (c1 c2 : Except PyErr Unit) (gen : GenOutcome)
    (hne : terms ≠ []) (hkey : truthyOptStr apiKey = false) :
    analyze_with_gemini terms apiKey c1 c2 gen
      = (Except.ok ("GEMINI_API_KEY not set. Preview prompt to send to Gemini:\n\n"
          ++ buildPrompt terms), false)
    ∧ buildPrompt terms
        = "You are a Google Ads specialist. Look at these search terms that are costing money but resulting in zero conversions:\n\n"
          ++ String.intercalate "\n" terms
          ++ "\n\nTask:\n1. Identify which terms likely represent 'junk' or 'irrelevant' intent.\n2. Provide a list of recommended Negative Keywords to add.\n3. Explain briefly why for each." := by
  cases terms with
  | nil => exact absurd rfl hne
  | cons a rest => exact ⟨by simp [analyze_with_gemini, hkey], rfl⟩

/-- Claim C7, witness: the preview theorem applied at a concrete one-term
list with the credential unset. -/
theorem analyze_preview_without_key_witness :
    analyze_with_gemini ["Term: 'x' (Spent: $10.00)"] none (Except.ok ()) (Except.ok ())
        (GenOutcome.success none "")
      = (Except.ok ("GEMINI_API_KEY not set. Preview prompt to send to Gemini:\n\n"
          ++ buildPrompt ["Term: 'x' (Spent: $10.00)"]), false) :=
  (analyze_preview_without_key ["Term: 'x' (Spent: $10.00)"] none (Except.ok ()) (Except.ok ())
      (GenOutcome.success none "") (by simp) rfl).1

/-- Claim C9: on the live path, when the wasted-spend query returns the
empty list, main prints the no-wasted-spend message after the startup and
fetching lines (plus whatever the query stage printed) and stops: the only
external call in the trace is the query itself — no model call and no mock
call is made, whatever the backend flag, credential and model outcome. -/
theorem live_empty_skips_analysis (env : Env)
    (hdry : env.dryRun = false) (hcid : truthyOptStr env.targetCustomerId = true)
    (hload : env.adsLoad = Except.ok ())
    (hq : (get_wasted_spend_queries env.adsQuery).2 = []) :
    mainRun env = Except.ok
      ([startLine, "Fetching data for Account " ++ pyStrOpt env.targetCustomerId ++ "..."]
        ++ (get_wasted_spend_queries env.adsQuery).1
        ++ ["No wasted spend detected based on your filters."],
       [CallEvt.adsQuery]) := by
  simp [mainRun, hdry, hcid, hload, hq]

/-- Claim C9, witness: the live path with an empty query result on a
concrete environment. -/
theorem live_empty_skips_analysis_witness :
    mainRun ⟨false, false, "campaign_config.yaml", false, Except.ok YamlValue.null,
        some "1234567890", "google-ads.yaml", Except.ok (), Except.ok [], none,
        Except.ok (), Except.ok (), GenOutcome.success none ""⟩
      = Except.ok
        ([startLine, "Fetching data for Account " ++ pyStrOpt (some "1234567890") ++ "..."]
          ++ (get_wasted_spend_queries (Except.ok [])).1
          ++ ["No wasted spend detected based on your filters."],
         [CallEvt.adsQuery]) :=
  live_empty_skips_analysis _ rfl rfl rfl rfl

/-- Claim C2, counterexample: a dry-run whose config file parses to a YAML
sequence instead of a mapping raises an uncaught AttributeError out of main
(the process exits non-zero), and analyze_with_gemini lets the exception of
the second model-constructor attempt escape when both attempts fail. -/
theorem main_uncaught_exception_cex :
    mainRun ⟨true, false, "campaign_config.yaml", true, Except.ok (YamlValue.list []),
        none, "google-ads.yaml", Except.ok (), Except.ok [], none,
        Except.ok (), Except.ok (), GenOutcome.success none ""⟩
      = Except.error PyErr.attributeError
    ∧ analyze_with_gemini ["Term: 'x' (Spent: $10.00)"] (some "key")
        (Except.error (PyErr.exn "boom")) (Except.error (PyErr.exn "boom"))
        (GenOutcome.success none "")
      = (Except.error (PyErr.exn "boom"), false) :=
  ⟨rfl, rfl⟩

/-- Totality of analyze_with_gemini whenever at least one of the two
model-constructor attempts succeeds: the result is an ordinary string, not
an escaping exception. -/
theorem analyze_no_uncaught (terms : List String) (apiKey : Option String)
    (c1 c2 : Except PyErr Unit) (gen : GenOutcome)
    (hc : c1 = Except.ok () ∨ c2 = Except.ok ()) :
    ∃ s b, analyze_with_gemini terms apiKey c1 c2 gen = (Except.ok s, b) := by
  cases terms with
  | nil => exact ⟨"No data found to analyze.", false, rfl⟩
  | cons a rest =>
    by_cases hk : truthyOptStr apiKey = true
    · cases c1 with
      | ok u => exact ⟨genReturn gen, true, by simp [analyze_with_gemini, hk]⟩
      | error e1 =>
        cases c2 with
        | ok u => exact ⟨genReturn gen, true, by simp [analyze_with_gemini, hk]⟩
        | error e2 =>
          rcases hc with h | h
          · exact absurd h (by simp)
          · exact absurd h (by simp)
    · rw [Bool.not_eq_true] at hk
      exact ⟨"GEMINI_API_KEY not set. Preview prompt to send to Gemini:\n\n"
        ++ buildPrompt (a :: rest), false, by simp [analyze_with_gemini, hk]⟩

/-- Totality of the backend selection under the same proviso. -/
theorem chooseAnalysis_no_uncaught (mock : Bool) (terms : List String)
    (apiKey : Option String) (c1 c2 : Except PyErr Unit) (gen : GenOutcome)
    (hc : c1 = Except.ok () ∨ c2 = Except.ok ()) :
    ∃ r, chooseAnalysis mock terms apiKey c1 c2 gen = Except.ok r := by
  cases mock with
  | true => exact ⟨(mock_gemini_response terms, [CallEvt.mockAnalyze]), rfl⟩
  | false =>
    obtain ⟨s, b, hs⟩ := analyze_no_uncaught terms apiKey c1 c2 gen hc
    exact ⟨(s, if b then [CallEvt.modelGenerate] else []), by simp [chooseAnalysis, hs]⟩

/-- Claim C2 as amended: the guarded failures are indeed caught and turned
into printed or returned messages — a failing generate-content call makes
analyze_with_gemini return an error-message string rather than raise, and
main completes with exit 0 on every run in which a dry-run config file (if
the dry-run branch is taken at all) parses to a well-formed shape and at
least one model-constructor attempt succeeds.  However (see the
counterexample) a malformed dry-run config raises an uncaught exception out
of main, and a double constructor failure escapes analyze_with_gemini, so
the claim's "no exception propagates, exit 0 on all paths, never raises"
does not hold unconditionally. -/
theorem errors_caught_on_guarded_paths :
    (∀ (terms : List String) (apiKey : Option String) (c2 : Except PyErr Unit) (msg : String),
      terms ≠ [] → truthyOptStr apiKey = true →
      analyze_with_gemini terms apiKey (Except.ok ()) c2 (GenOutcome.failure msg)
        = (Except.ok ("Gemini API error: " ++ msg), true))
    ∧ (∀ env : Env,
        (env.dryRun = true → env.campaignCfgExists = true →
          ∃ cfg ts, env.cfgParse = Except.ok cfg ∧ synthesizeTerms cfg = Except.ok ts)
        → (env.ctor1 = Except.ok () ∨ env.ctor2 = Except.ok ())
        → ∃ out, mainRun env = Except.ok out) := by
  constructor
  · intro terms apiKey c2 msg hne hk
    cases terms with
    | nil => exact absurd rfl hne
    | cons a rest => simp [analyze_with_gemini, hk, genReturn]
  · intro env hcfg hc
    obtain ⟨dr, mg, ccp, cce, cp, tc, acp, al, aq, ak, c1, c2, gen⟩ := env
    cases dr with
    | false =>
      cases htc : truthyOptStr tc with
      | false => exact ⟨_, by simp [mainRun, htc]; try rfl⟩
      | true =>
        cases al with
        | error e => exact ⟨_, by simp [mainRun, htc]; try rfl⟩
        | ok u =>
          cases hq : (get_wasted_spend_queries aq).2.isEmpty with
          | true => exact ⟨_, by simp [mainRun, htc, hq]; try rfl⟩
          | false =>
            obtain ⟨r, hr⟩ :=
              chooseAnalysis_no_uncaught mg (get_wasted_spend_queries aq).2 ak c1 c2 gen hc
            exact ⟨_, by simp [mainRun, htc, hq, hr]; try rfl⟩
    | true =>
      cases cce with
      | false => exact ⟨_, by simp [mainRun]; try rfl⟩
      | true =>
        obtain ⟨cfg, ts, hcp, hts⟩ := hcfg rfl rfl
        subst hcp
        obtain ⟨r, hr⟩ := chooseAnalysis_no_uncaught mg ts ak c1 c2 gen hc
        exact ⟨_, by simp [mainRun, hts, hr]; try rfl⟩

/-- Claim C2 amended, witness: the amended theorem applied on a concrete
failing generate call and a concrete live-path environment. -/
theorem errors_caught_on_guarded_paths_witness :
    analyze_with_gemini ["Term: 'x' (Spent: $10.00)"] (some "key") (Except.ok ())
        (Except.ok ()) (GenOutcome.failure "quota exceeded")
      = (Except.ok ("Gemini API error: " ++ "quota exceeded"), true)
    ∧ ∃ out, mainRun ⟨false, false, "campaign_config.yaml", false, Except.ok YamlValue.null,
        none, "google-ads.yaml", Except.ok (), Except.ok [], none, Except.ok (), Except.ok (),
        GenOutcome.success none ""⟩ = Except.ok out :=
  ⟨errors_caught_on_guarded_paths.1 ["Term: 'x' (Spent: $10.00)"] (some "key") (Except.ok ())
      "quota exceeded" (by simp) rfl,
   errors_caught_on_guarded_paths.2 ⟨false, false, "campaign_config.yaml", false,
      Except.ok YamlValue.null, none, "google-ads.yaml", Except.ok (), Except.ok [], none,
      Except.ok (), Except.ok (), GenOutcome.success none ""⟩
      (fun h => nomatch h) (Or.inl rfl)⟩

/-- Lines whose simulated costs follow the dry-run schedule starting at
index `i`: the j-th line (j = 0, 1, ...) is a term line with
`cost_micros = 60_000_000 + (i + j) * 10_000_000`. -/
def LinesAt : Nat → List String → Prop
  | _, [] => True
  | i, l :: ls =>
    (∃ t, l = termLine t (60000000 + (i : Int) * 10000000)) ∧ LinesAt (i + 1) ls

/-- Splitting of the cost schedule over an append. -/
theorem LinesAt_append (a b : List String) : ∀ i : Nat,
    LinesAt i (a ++ b) ↔ LinesAt i a ∧ LinesAt (i + a.length) b := by
  induction a with
  | nil => intro i; simp [LinesAt]
  | cons x xs ih =>
    intro i
    simp only [List.cons_append, List.append_eq, LinesAt, List.length_cons]
    rw [ih (i + 1)]
    constructor
    · rintro ⟨hx, h1, h2⟩
      refine ⟨⟨hx, h1⟩, ?_⟩
      have he : i + 1 + xs.length = i + (xs.length + 1) := by omega
      rwa [he] at h2
    · rintro ⟨⟨hx, h1⟩, h2⟩
      refine ⟨hx, h1, ?_⟩
      have he : i + 1 + xs.length = i + (xs.length + 1) := by omega
      rwa [he]

/-- Indexed reading of the cost schedule: the k-th line of a scheduled list
carries `cost_micros = 60_000_000 + (i + k) * 10_000_000`. -/
theorem LinesAt_get (ls : List String) : ∀ (i k : Nat) (hk : k < ls.length),
    LinesAt i ls →
    ∃ t, ls.get ⟨k, hk⟩ = termLine t (60000000 + ((i + k : Nat) : Int) * 10000000) := by
  induction ls with
  | nil => intro i k hk _; exact absurd hk (by simp)
  | cons x xs ih =>
    intro i k hk h
    cases k with
    | zero =>
      obtain ⟨⟨t, ht⟩, _⟩ := h
      exact ⟨t, by simpa using ht⟩
    | succ j =>
      obtain ⟨_, h2⟩ := h
      obtain ⟨t, ht⟩ := ih (i + 1) j (by simpa using Nat.lt_of_succ_lt_succ hk) h2
      refine ⟨t, ?_⟩
      have he : i + 1 + j = i + (j + 1) := by omega
      rw [he] at ht
      simpa using ht

/-- Invariant of the inner keyword loop: starting below the cap, the final
index is the start index plus the number of emitted lines, never exceeds 10,
and the emitted lines follow the cost schedule from the start index. -/
theorem processKeywords_spec (kws : List YamlValue) : ∀ idx : Nat, idx < 10 →
    (processKeywords kws idx).2 = idx + (processKeywords kws idx).1.length
    ∧ (processKeywords kws idx).2 ≤ 10
    ∧ LinesAt idx (processKeywords kws idx).1 := by
  induction kws with
  | nil => intro idx h; exact ⟨by simp [processKeywords], by simp [processKeywords]; omega, trivial⟩
  | cons kw rest ih =>
    intro idx h
    by_cases ht : pyTruthy (extractText kw) = true
    · by_cases h10 : 10 ≤ idx + 1
      · have heq : processKeywords (kw :: rest) idx
            = ([termLine (pyStr (extractText kw)) (60000000 + (idx : Int) * 10000000)],
               idx + 1) := by
          simp [processKeywords, ht, h10]
        rw [heq]
        exact ⟨by simp, by simp; omega, ⟨⟨pyStr (extractText kw), rfl⟩, trivial⟩⟩
      · have h10' : idx + 1 < 10 := by omega
        obtain ⟨e1, e2, e3⟩ := ih (idx + 1) h10'
        have heq : processKeywords (kw :: rest) idx
            = (termLine (pyStr (extractText kw)) (60000000 + (idx : Int) * 10000000)
                :: (processKeywords rest (idx + 1)).1,
               (processKeywords rest (idx + 1)).2) := by
          simp [processKeywords, ht, h10]
        rw [heq]
        refine ⟨by simp; omega, by simpa using e2, ?_⟩
        exact ⟨⟨pyStr (extractText kw), rfl⟩, e3⟩
    · rw [Bool.not_eq_true] at ht
      have heq : processKeywords (kw :: rest) idx = processKeywords rest idx := by
        simp [processKeywords, ht]
      rw [heq]
      exact ih idx h

/-- Invariant of the outer ad-group loop: a successful run from a start
index below the cap emits at most `10 - idx` lines, all on the cost
schedule. -/
theorem processGroups_spec (ags : List YamlValue) : ∀ (idx : Nat) (ls : List String),
    idx < 10 → processGroups ags idx = Except.ok ls →
    idx + ls.length ≤ 10 ∧ LinesAt idx ls := by
  induction ags with
  | nil =>
    intro idx ls h hok
    simp only [processGroups, Except.ok.injEq] at hok
    subst hok
    exact ⟨by simp; omega, trivial⟩
  | cons ag rest ih =>
    intro idx ls h hok
    cases ag with
    | dict d =>
      cases hkw : pyIter ((lookupStr d "keywords").getD (YamlValue.list [])) with
      | error e => simp [processGroups, hkw] at hok
      | ok kws =>
        simp only [processGroups, hkw] at hok
        obtain ⟨e1, e2, e3⟩ := processKeywords_spec kws idx h
        by_cases h10 : 10 ≤ (processKeywords kws idx).2
        · rw [if_pos h10] at hok
          simp only [Except.ok.injEq] at hok
          subst hok
          exact ⟨by omega, e3⟩
        · rw [if_neg h10] at hok
          cases hrec : processGroups rest (processKeywords kws idx).2 with
          | error e => rw [hrec] at hok; simp at hok
          | ok ls' =>
            rw [hrec] at hok
            simp only [Except.ok.injEq] at hok
            subst hok
            have hlt : (processKeywords kws idx).2 < 10 := by omega
            obtain ⟨f1, f2⟩ := ih (processKeywords kws idx).2 ls' hlt hrec
            constructor
            · rw [List.length_append]; omega
            · rw [LinesAt_append]
              refine ⟨e3, ?_⟩
              rw [e1] at f2
              exact f2
    | null => simp [processGroups] at hok
    | bool b => simp [processGroups] at hok
    | int n => simp [processGroups] at hok
    | str s => simp [processGroups] at hok
    | list xs => simp [processGroups] at hok

set_option maxRecDepth 8000 in
/-- Claim C3: every successful dry-run synthesis emits at most 10 terms, and
the k-th emitted term carries simulated
`cost_micros = 60_000_000 + k * 10_000_000` (costs start at 60.00 dollars
and grow by exactly 10.00 dollars per term); on the example config with
keywords "shoe repair" and a mapping with text "cheap shoes", exactly the
two claimed term lines are produced. -/
theorem dry_run_bounded_increasing_costs :
    (∀ (cfg : YamlValue) (ts : List String), synthesizeTerms cfg = Except.ok ts →
      ts.length ≤ 10
      ∧ ∀ (k : Nat) (hk : k < ts.length), ∃ text : String,
          ts.get ⟨k, hk⟩ = termLine text (60000000 + (k : Int) * 10000000))
    ∧ synthesizeTerms (YamlValue.dict [("ad_groups", YamlValue.list [YamlValue.dict
        [("keywords", YamlValue.list [YamlValue.str "shoe repair",
          YamlValue.dict [("text", YamlValue.str "cheap shoes")]])]])])
      = Except.ok ["Term: 'shoe repair' (Spent: $60.00)", "Term: 'cheap shoes' (Spent: $70.00)"] := by
  constructor
  · intro cfg ts hok
    cases cfg with
    | dict d =>
      cases hit : pyIter ((lookupStr d "ad_groups").getD (YamlValue.list [])) with
      | error e => simp [synthesizeTerms, hit] at hok
      | ok ags =>
        simp only [synthesizeTerms, hit] at hok
        obtain ⟨h1, h2⟩ := processGroups_spec ags 0 ts (by omega) hok
        refine ⟨by omega, ?_⟩
        intro k hk
        obtain ⟨t, htl⟩ := LinesAt_get ts 0 k hk h2
        exact ⟨t, by simpa using htl⟩
    | null => simp [synthesizeTerms] at hok
    | bool b => simp [synthesizeTerms] at hok
    | int n => simp [synthesizeTerms] at hok
    | str s => simp [synthesizeTerms] at hok
    | list xs => simp [synthesizeTerms] at hok
  · rfl

set_option maxRecDepth 8000 in
/-- Claim C3, witness: the bound and schedule read off the example config
through the theorem itself. -/
theorem dry_run_bounded_increasing_costs_witness :
    (["Term: 'shoe repair' (Spent: $60.00)", "Term: 'cheap shoes' (Spent: $70.00)"] : List String).length ≤ 10
    ∧ ∀ (k : Nat) (hk : k < (["Term: 'shoe repair' (Spent: $60.00)",
          "Term: 'cheap shoes' (Spent: $70.00)"] : List String).length),
        ∃ text : String,
          (["Term: 'shoe repair' (Spent: $60.00)",
            "Term: 'cheap shoes' (Spent: $70.00)"] : List String).get ⟨k, hk⟩
            = termLine text (60000000 + (k : Int) * 10000000) :=
  dry_run_bounded_increasing_costs.1
    (YamlValue.dict [("ad_groups", YamlValue.list [YamlValue.dict
      [("keywords", YamlValue.list [YamlValue.str "shoe repair",
        YamlValue.dict [("text", YamlValue.str "cheap shoes")]])]])])
    ["Term: 'shoe repair' (Spent: $60.00)", "Term: 'cheap shoes' (Spent: $70.00)"]
    dry_run_bounded_increasing_costs.2

/-- Claim C5: a keyword entry whose extracted text is falsy (empty or
missing) is skipped without touching the simulated index, so deleting it
from any position of the keyword list leaves the loop's entire output
unchanged; the empty string and a mapping with no "text" binding are such
entries. -/
theorem synth_skips_falsy_keywords :
    (∀ (pre post : List YamlValue) (kw : YamlValue) (idx : Nat),
      pyTruthy (extractText kw) = false →
      processKeywords (pre ++ kw :: post) idx = processKeywords (pre ++ post) idx)
    ∧ pyTruthy (extractText (YamlValue.str "")) = false
    ∧ (∀ d : List (String × YamlValue), lookupStr d "text" = none →
        pyTruthy (extractText (YamlValue.dict d)) = false) := by
  refine ⟨?_, rfl, ?_⟩
  · intro pre
    induction pre with
    | nil =>
      intro post kw idx hf
      simp [processKeywords, hf]
    | cons p pre' ih =>
      intro post kw idx hf
      by_cases ht : pyTruthy (extractText p) = true
      · by_cases h10 : 10 ≤ idx + 1
        · simp [processKeywords, ht, h10]
        · simp only [List.cons_append, List.append_eq, processKeywords, ht, if_true, h10, if_false]
          rw [ih post kw (idx + 1) hf]
      · rw [Bool.not_eq_true] at ht
        simp only [List.cons_append, List.append_eq, processKeywords, ht]
        exact ih post kw idx hf
  · intro d hd
    simp [extractText, hd, pyTruthy]

/-- Claim C5, witness: dropping a falsy keyword from a concrete list leaves
the loop output unchanged. -/
theorem synth_skips_falsy_keywords_witness :
    processKeywords [YamlValue.str "a", YamlValue.str "", YamlValue.str "b"] 0
      = processKeywords [YamlValue.str "a", YamlValue.str "b"] 0 :=
  synth_skips_falsy_keywords.1 [YamlValue.str "a"] [YamlValue.str "b"] (YamlValue.str "") 0 rfl
